import Mathlib

/-!
# Verification of the ENC28J60 smoltcp example's poll loop

Shallow embedding of `src/examples/smoltcp.rs` (the only source file of the
repository).  The file brings up peripherals, wraps the ENC28J60 driver as a
smoltcp PHY, registers one TCP socket in a two-slot socket set, turns an
active-low LED on, and then runs the poll loop of lines 141-172:

```
loop {
    match iface.poll(&mut sockets, Instant::from_millis(0)) {
        Ok(b) => {
            if b {
                let mut socket = sockets.get::<TcpSocket>(server_handle);
                if !socket.is_open() { socket.listen(80).unwrap(); }
                if socket.can_send() {
                    writeln!(serial, "tcp:80 send").unwrap();
                    led.toggle();
                    write!(socket, "HTTP/1.1 200 OK\r\n\r\nLED is currently: ...",
                           match led.is_set_low() { true => "on", false => "off" }).unwrap();
                    writeln!(serial, "tcp:80 close").unwrap();
                    socket.close();
                }
            }
        }
        Err(e) => { writeln!(serial, "Error: ...", e).unwrap(); }
    }
}
```

The embedding models one iteration of the loop body as a function of the
result returned by `iface.poll` and of the socket-set state that `poll`
left behind; the protocol work done inside `poll` (smoltcp internals, out
of scope per the design description) is an adversarial update of each
socket's protocol fields.  Observable actions of the loop body (serial
diagnostics, socket calls, LED toggles) are recorded in a trace.
-/

/-- The kind of a socket stored in the socket set.  The example only ever
constructs `TcpSocket`s, but the kind is carried so that the absence of UDP
sockets is a provable statement rather than a typing artifact. -/
inductive SocketKind where
  | tcp
  | udp
deriving DecidableEq, Repr

/-- Protocol-visible state of one socket, as observed by the loop body:
`is_open()`, `can_send()`, and the local port bound by a `listen`.  These
fields are rewritten by every `iface.poll` call (smoltcp drives the TCP
state machine there); the loop body only reads them and issues
`listen`/`write`/`close`. -/
structure ProtoState where
  isOpen : Bool
  canSend : Bool
  localPort : Option Nat
deriving DecidableEq, Repr

/-- One slot of the socket set: the socket's kind plus its protocol state. -/
structure SocketEntry where
  kind : SocketKind
  proto : ProtoState
deriving DecidableEq, Repr

/-- State owned by the poll loop: the LED output pin (recorded as the value
of `is_set_low()`, i.e. `true` means the pin is driven low) and the socket
set contents. -/
structure LoopState where
  ledIsSetLow : Bool
  sockets : List SocketEntry
deriving DecidableEq, Repr

/-- Result of `iface.poll`: `Ok(b)` where `b` says whether any socket's
readiness changed, or `Err(e)` carrying the error's debug text. -/
inductive PollResult where
  | ok (readinessChanged : Bool)
  | err (e : String)
deriving DecidableEq, Repr

/-- Observable events emitted by one iteration of the loop body. -/
inductive Event where
  | serialLine (s : String)
  | listen (handle : Nat) (port : Nat)
  | payloadWrite (handle : Nat) (pay : String)
  | close (handle : Nat)
  | ledToggle
deriving DecidableEq, Repr

/-- Outcome of one iteration of the loop body: either the loop continues
with a new state (and the emitted events), or one of the `.unwrap()` calls
or the `sockets.get::<TcpSocket>` lookup panicked. -/
inductive StepOutcome where
  | next (st : LoopState) (evs : List Event)
  | crash (evs : List Event)
deriving DecidableEq, Repr

/-- Whether the iteration ended in a panic. -/
def StepOutcome.isCrash : StepOutcome → Bool
  | .next _ _ => false
  | .crash _ => true

/-- The events emitted by the iteration, panicking or not. -/
def StepOutcome.events : StepOutcome → List Event
  | .next _ evs => evs
  | .crash evs => evs

/-- Socket operations among the events (`listen`, the payload write, and
`close`); serial diagnostics and LED toggles are not socket operations. -/
def Event.isSocketOp : Event → Bool
  | .listen _ _ => true
  | .payloadWrite _ _ => true
  | .close _ => true
  | _ => false

/-- The socket handle an event acts on, if it is a socket operation. -/
def Event.handleOf : Event → Option Nat
  | .listen h _ => some h
  | .payloadWrite h _ => some h
  | .close h => some h
  | _ => none

/-- Whether the event is the payload write. -/
def Event.isPayloadWrite : Event → Bool
  | .payloadWrite _ _ => true
  | _ => false

/-- The handle of the single TCP server socket: it is the first (and only)
socket added to the two-slot `SocketSet` (line 135 of the source). -/
def serverHandle : Nat := 0

/-- The source's `match led.is_set_low() { true => "on", false => "off" }`
(lines 157-160): the textual LED state, as a function of the pin level. -/
def ledStateName (isSetLow : Bool) : String :=
  if isSetLow then "on" else "off"

/-- The response payload written to the TCP socket (lines 154-161):
`"HTTP/1.1 200 OK\r\n\r\nLED is currently: "` followed by the LED state
name and a newline.  The argument is the value of `led.is_set_low()` at
the moment of writing. -/
def payload (ledIsSetLow : Bool) : String :=
  "HTTP/1.1 200 OK\r\n\r\nLED is currently: " ++ ledStateName ledIsSetLow ++ "\n"

/-- The event sequence of the send branch (lines 151-164): the diagnostic
line, the LED toggle, the payload write (reporting the post-toggle pin
level `!led`), the second diagnostic line, and the close.  `led` is the
pin level (`is_set_low()`) when the branch is entered. -/
def sendTrace (led : Bool) : List Event :=
  [.serialLine "tcp:80 send",
   .ledToggle,
   .payloadWrite serverHandle (payload (!led)),
   .serialLine "tcp:80 close",
   .close serverHandle]

/-- Modelled from the spec: `smoltcp`'s `TcpSocket::listen` (an external
collaborator, absent from `src/`) "fails only if the port is already bound
by another socket in the set".  `anyOtherBinds i handle port rest` scans
the set slots starting at index `i` for a slot other than `handle` whose
socket is bound to `port`. -/
def anyOtherBinds (i : Nat) (handle : Nat) (port : Nat) : List SocketEntry → Bool
  | [] => false
  | e :: rest =>
      (i != handle && e.proto.localPort == some port) || anyOtherBinds (i + 1) handle port rest

/-- Whether a socket other than `handle` binds `port`, over the whole set. -/
def otherSocketBindsPort (sockets : List SocketEntry) (handle : Nat) (port : Nat) : Bool :=
  anyOtherBinds 0 handle port sockets

/-- Replace the protocol state of the socket at `handle` (no-op when the
handle is out of range; the entry's kind is never changed). -/
def setProto (sockets : List SocketEntry) (handle : Nat) (p : ProtoState) :
    List SocketEntry :=
  match sockets[handle]? with
  | some e => sockets.set handle { e with proto := p }
  | none => sockets

/-- Modelled from the spec: a successful `listen(port)` puts the socket in
the LISTEN state — it is open, bound to `port`, and (having no established
connection yet) cannot send. -/
def listeningProto (port : Nat) : ProtoState :=
  { isOpen := true, canSend := false, localPort := some port }

/-- Lines 150-165 of the source: after the (possible) `listen`, check
`can_send()`; if sending is possible, emit the diagnostic line, toggle the
LED, write the payload reporting the post-toggle pin level, emit the second
diagnostic and `close()` the socket.  `sockets1`/`p1` are the socket set
and the server socket's protocol state after the `listen` step, `evs1` the
events emitted so far in this iteration. -/
def serveSend (st : LoopState) (sockets1 : List SocketEntry) (p1 : ProtoState)
    (evs1 : List Event) : StepOutcome :=
  if p1.canSend then
    let led1 := !st.ledIsSetLow
    let p2 : ProtoState := { p1 with isOpen := false, canSend := false }
    .next ⟨led1, setProto sockets1 serverHandle p2⟩ (evs1 ++ sendTrace st.ledIsSetLow)
  else
    .next ⟨st.ledIsSetLow, sockets1⟩ evs1

/-- One iteration of the loop body (lines 141-172), as a function of the
poll result and of the state `poll` left behind.
`Err(e)`: print the error, continue.  `Ok(false)`: do nothing.
`Ok(true)`: fetch the server socket (`sockets.get::<TcpSocket>` panics on a
dangling handle or non-TCP slot); if it is not open, `listen(80).unwrap()`
(the unwrap panics when listen fails, which per the spec happens only when
another socket in the set binds the port); then the send branch. -/
def iterate (st : LoopState) (pr : PollResult) : StepOutcome :=
  match pr with
  | .err e => .next st [.serialLine ("Error: " ++ e)]
  | .ok false => .next st []
  | .ok true =>
    match st.sockets[serverHandle]? with
    | none => .crash []
    | some entry =>
      match entry.kind with
      | .udp => .crash []
      | .tcp =>
        if entry.proto.isOpen then
          serveSend st st.sockets entry.proto []
        else
          if otherSocketBindsPort st.sockets serverHandle 80 then
            .crash [.listen serverHandle 80]
          else
            serveSend st (setProto st.sockets serverHandle (listeningProto 80))
              (listeningProto 80) [.listen serverHandle 80]

/-- The effect of one `iface.poll` call on the socket set: smoltcp rewrites
each socket's protocol state (drains inbound frames, advances the TCP state
machine, emits outbound frames) but never adds or removes sockets and never
changes a slot's kind.  The update function is adversarial: the theorems
below hold for every possible behaviour of the stack. -/
def applyPollFrom (i : Nat) (upd : Nat → ProtoState → ProtoState) :
    List SocketEntry → List SocketEntry
  | [] => []
  | e :: rest => { e with proto := upd i e.proto } :: applyPollFrom (i + 1) upd rest

/-- `applyPollFrom` starting at slot 0. -/
def applyPoll (sockets : List SocketEntry) (upd : Nat → ProtoState → ProtoState) :
    List SocketEntry :=
  applyPollFrom 0 upd sockets

/-- The environment's contribution to one full loop iteration: what `poll`
did to the sockets and what it returned. -/
structure Input where
  pollUpdate : Nat → ProtoState → ProtoState
  result : PollResult

/-- One full loop iteration: `iface.poll` mutates the socket set and
returns a result; the loop body then runs on the updated state. -/
def runIteration (st : LoopState) (inp : Input) : StepOutcome :=
  iterate { st with sockets := applyPoll st.sockets inp.pollUpdate } inp.result

/-- The LED pin level during initialization: line 54 (`led.set_high()`,
"turn the LED off during initialization") drives the pin high, so
`is_set_low()` is `false` while the LED is off. -/
def ledDuringInitIsSetLow : Bool := false

/-- The LED pin level at loop entry: line 139 (`led.set_low()`, "LED on
after initialization") drives the pin low, so `is_set_low()` is `true`
with the LED on. -/
def initLedIsSetLow : Bool := true

/-- The server socket as registered at startup (lines 127-135): a TCP
socket, closed, bound to no port. -/
def initServerSocket : SocketEntry :=
  { kind := .tcp, proto := { isOpen := false, canSend := false, localPort := none } }

/-- The loop state on entry to the loop: LED on (pin low), and the socket
set holding exactly the one TCP server socket. -/
def initState : LoopState :=
  { ledIsSetLow := initLedIsSetLow, sockets := [initServerSocket] }

/-- States the poll loop can reach from `initState` by non-panicking
iterations, for arbitrary behaviour of the stack. -/
inductive Reachable : LoopState → Prop where
  | init : Reachable initState
  | step {st st' : LoopState} {inp : Input} {evs : List Event} :
      Reachable st → runIteration st inp = .next st' evs → Reachable st'

/-- The timestamp passed to `iface.poll` (line 142): the source writes the
literal `Instant::from_millis(0)`, so the value is the constant 0 ms. -/
def pollTimestampMillis : Int := 0

/-- The timestamp the loop supplies to `poll` on its `i`-th iteration: the
same constant expression is evaluated every time round the loop, so the
supplied time does not depend on the iteration count. -/
def timestampSuppliedAt (_i : Nat) : Int := pollTimestampMillis

/-- Line 49 of the source: `cp.DWT.enable_cycle_counter()` — the
free-running cycle counter is enabled at startup (and never read again). -/
def cycleCounterEnabled : Bool := true

/-- The capacity of the outbound (`server_tx_buffer`) ring buffer: line 128
allocates `[0; 2048]`. -/
def txBufCapacity : Nat := 2048

/-- Modelled from the spec: the socket's "single bounded write" stores
`min(payload length, free capacity)` bytes — "if the payload exceeds the
outbound ring buffer capacity the write truncates silently".  `queued` is
the number of bytes already in the ring buffer. -/
def boundedWriteLen (queued : Nat) (cap : Nat) (pay : String) : Nat :=
  min pay.length (cap - queued)

/-! ## Helper lemmas -/

/-- `poll` on the singleton socket set: the one socket's protocol state is
rewritten, its kind and the set's size are untouched. -/
theorem applyPoll_singleton (k : SocketKind) (p : ProtoState)
    (upd : Nat → ProtoState → ProtoState) :
    applyPoll [⟨k, p⟩] upd = [⟨k, upd 0 p⟩] := rfl

/-- `setProto` on the singleton socket set. -/
theorem setProto_singleton (k : SocketKind) (p q : ProtoState) :
    setProto [⟨k, p⟩] serverHandle q = [⟨k, q⟩] := rfl

/-- No socket other than the server socket binds any port: the set has
exactly one slot. -/
theorem otherSocketBindsPort_singleton (e : SocketEntry) (port : Nat) :
    otherSocketBindsPort [e] serverHandle port = false := by
  simp [otherSocketBindsPort, anyOtherBinds, serverHandle]

/-- The send branch, fully computed: with the server socket open and able
to send, the iteration toggles the LED, emits exactly `sendTrace`, marks
the socket closing, and continues. -/
theorem iterate_open_send_eq (led : Bool) (p : ProtoState)
    (hopen : p.isOpen = true) (hsend : p.canSend = true) :
    iterate ⟨led, [⟨.tcp, p⟩]⟩ (.ok true) =
      .next ⟨!led, [⟨.tcp, { p with isOpen := false, canSend := false }⟩]⟩
        (sendTrace led) := by
  simp [iterate, serveSend, serverHandle, setProto, hopen, hsend]

/-- The open-but-not-sendable branch, fully computed: nothing happens. -/
theorem iterate_open_nosend_eq (led : Bool) (p : ProtoState)
    (hopen : p.isOpen = true) (hsend : p.canSend = false) :
    iterate ⟨led, [⟨.tcp, p⟩]⟩ (.ok true) = .next ⟨led, [⟨.tcp, p⟩]⟩ [] := by
  simp [iterate, serveSend, serverHandle, hopen, hsend]

/-- The not-open branch, fully computed: the socket is put into LISTEN on
port 80 and (being freshly listening, hence unable to send) nothing else
happens this iteration. -/
theorem iterate_notopen_eq (led : Bool) (p : ProtoState)
    (hopen : p.isOpen = false) :
    iterate ⟨led, [⟨.tcp, p⟩]⟩ (.ok true) =
      .next ⟨led, [⟨.tcp, listeningProto 80⟩]⟩ [.listen serverHandle 80] := by
  simp [iterate, serveSend, serverHandle, setProto, hopen, otherSocketBindsPort,
    anyOtherBinds, listeningProto]

/-- Every event of the send branch that touches a socket touches the
server socket. -/
theorem sendTrace_handles (led : Bool) :
    ∀ ev ∈ sendTrace led, ∀ n, ev.handleOf = some n → n = serverHandle := by
  intro ev hev n hn
  simp only [sendTrace, List.mem_cons, List.mem_singleton] at hev
  rcases hev with rfl | rfl | rfl | rfl | rfl | h
  · simp [Event.handleOf] at hn
  · simp [Event.handleOf] at hn
  · simp [Event.handleOf] at hn; omega
  · simp [Event.handleOf] at hn
  · simp [Event.handleOf] at hn; omega
  · cases h

/-- On a singleton all-TCP socket set, one iteration of the loop body never
panics, keeps the set a singleton TCP set, and only ever touches the
server socket. -/
theorem iterate_singleton_next (led : Bool) (p : ProtoState) (pr : PollResult) :
    ∃ led' p' evs,
      iterate ⟨led, [⟨.tcp, p⟩]⟩ pr = .next ⟨led', [⟨.tcp, p'⟩]⟩ evs ∧
      ∀ ev ∈ evs, ∀ n, ev.handleOf = some n → n = serverHandle := by
  cases pr with
  | err e =>
      refine ⟨led, p, [.serialLine ("Error: " ++ e)], rfl, ?_⟩
      intro ev hev n hn
      simp only [List.mem_singleton] at hev
      subst hev
      simp [Event.handleOf] at hn
  | ok b =>
      cases b with
      | false => exact ⟨led, p, [], rfl, by intro ev hev; cases hev⟩
      | true =>
          cases hopen : p.isOpen with
          | false =>
              refine ⟨led, listeningProto 80, [.listen serverHandle 80],
                iterate_notopen_eq led p hopen, ?_⟩
              intro ev hev n hn
              simp only [List.mem_singleton] at hev
              subst hev
              simp [Event.handleOf] at hn
              omega
          | true =>
              cases hsend : p.canSend with
              | false => exact ⟨led, p, [], iterate_open_nosend_eq led p hopen hsend,
                  by intro ev hev; cases hev⟩
              | true =>
                  exact ⟨!led, { p with isOpen := false, canSend := false },
                    sendTrace led, iterate_open_send_eq led p hopen hsend,
                    sendTrace_handles led⟩

/-- A full iteration on the singleton set, in terms of the loop body. -/
theorem runIteration_singleton (led : Bool) (p : ProtoState) (inp : Input) :
    runIteration ⟨led, [⟨.tcp, p⟩]⟩ inp =
      iterate ⟨led, [⟨.tcp, inp.pollUpdate 0 p⟩]⟩ inp.result := rfl

/-- Every reachable loop state holds exactly one socket, and it is the TCP
server socket (in some protocol state). -/
theorem reachable_shape {st : LoopState} (h : Reachable st) :
    ∃ led p, st = ⟨led, [⟨.tcp, p⟩]⟩ := by
  induction h with
  | init => exact ⟨initLedIsSetLow, _, rfl⟩
  | @step st st' inp evs _ hstep ih =>
      obtain ⟨led, p, rfl⟩ := ih
      obtain ⟨led', p', evs', heq, _⟩ :=
        iterate_singleton_next led (inp.pollUpdate 0 p) inp.result
      rw [runIteration_singleton, heq] at hstep
      injection hstep with h1 _
      exact ⟨led', p', h1.symm⟩

/-! ## Claim theorems -/

/-- C1.  One-shot response: in a poll-loop iteration in which poll reports a
readiness change (`.ok true`) and the TCP socket reports send capacity
available (`isOpen` and `canSend`), the loop body emits exactly the
`sendTrace` events: among socket operations, exactly one payload write,
immediately followed by `close`, and no second payload write occurs. -/
theorem one_shot_response (led : Bool) (p : ProtoState)
    (hopen : p.isOpen = true) (hsend : p.canSend = true) :
    ∃ st', iterate ⟨led, [⟨.tcp, p⟩]⟩ (.ok true) = .next st' (sendTrace led) ∧
      (sendTrace led).filter Event.isSocketOp =
        [.payloadWrite serverHandle (payload (!led)), .close serverHandle] ∧
      ((sendTrace led).filter Event.isPayloadWrite).length = 1 :=
  ⟨_, iterate_open_send_eq led p hopen hsend, rfl, rfl⟩

/-- C1 witness: a concrete iteration (LED off, socket open and sendable). -/
theorem one_shot_response_witness :
    ∃ st', iterate ⟨false, [⟨.tcp, ⟨true, true, some 80⟩⟩]⟩ (.ok true) =
        .next st' (sendTrace false) ∧
      (sendTrace false).filter Event.isSocketOp =
        [.payloadWrite serverHandle (payload (!false)), .close serverHandle] ∧
      ((sendTrace false).filter Event.isPayloadWrite).length = 1 :=
  one_shot_response false ⟨true, true, some 80⟩ rfl rfl

/-- C2.  Response payload format: whenever the service writes its response,
the bytes written are exactly `"HTTP/1.1 200 OK\r\n\r\nLED is currently: "`
followed by `"on"` or `"off"` and `"\n"`, the reported field equals the
LED state at the moment of writing (the post-iteration state `!led`), and
the trace ends with the `close` of the same socket. -/
theorem response_payload_format (led : Bool) (p : ProtoState)
    (hopen : p.isOpen = true) (hsend : p.canSend = true) :
    iterate ⟨led, [⟨.tcp, p⟩]⟩ (.ok true) =
      .next ⟨!led, [⟨.tcp, { p with isOpen := false, canSend := false }⟩]⟩
        (sendTrace led) ∧
    (sendTrace led)[2]? = some (.payloadWrite serverHandle (payload (!led))) ∧
    payload true = "HTTP/1.1 200 OK\r\n\r\nLED is currently: on\n" ∧
    payload false = "HTTP/1.1 200 OK\r\n\r\nLED is currently: off\n" ∧
    (sendTrace led).getLast? = some (.close serverHandle) :=
  ⟨iterate_open_send_eq led p hopen hsend, rfl, rfl, rfl, rfl⟩

/-- C2 witness: the concrete iteration with the LED on (pin low). -/
theorem response_payload_format_witness :
    iterate ⟨true, [⟨.tcp, ⟨true, true, some 80⟩⟩]⟩ (.ok true) =
      .next ⟨!true, [⟨.tcp, (⟨false, false, some 80⟩ : ProtoState)⟩]⟩
        (sendTrace true) ∧
    (sendTrace true)[2]? = some (.payloadWrite serverHandle (payload (!true))) ∧
    payload true = "HTTP/1.1 200 OK\r\n\r\nLED is currently: on\n" ∧
    payload false = "HTTP/1.1 200 OK\r\n\r\nLED is currently: off\n" ∧
    (sendTrace true).getLast? = some (.close serverHandle) :=
  response_payload_format true ⟨true, true, some 80⟩ rfl rfl

/-- C3.  Error resilience: when `iface.poll` returns an error, the loop
body writes the error to the diagnostic stream, performs no socket
operation, leaves the state unchanged, and does not panic — the loop
proceeds to the next iteration. -/
theorem poll_error_resilience (st : LoopState) (e : String) :
    iterate st (.err e) = .next st [.serialLine ("Error: " ++ e)] ∧
    [Event.serialLine ("Error: " ++ e)].filter Event.isSocketOp = [] ∧
    (iterate st (.err e)).isCrash = false :=
  ⟨rfl, rfl, rfl⟩

/-- C4 counterexample.  The claim says the timestamp handed to `poll` is a
real elapsed-time value derived from the free-running counter, not a
constant; but the source passes the literal `Instant::from_millis(0)`, so
after a billion iterations the supplied timestamp is still the same 0 ms
supplied on iteration 0. -/
theorem timestamp_not_elapsed_counterexample :
    timestampSuppliedAt 1000000000 = timestampSuppliedAt 0 ∧
    timestampSuppliedAt 1000000000 = 0 ∧
    cycleCounterEnabled = true :=
  ⟨rfl, rfl, rfl⟩

/-- C4 amended.  On every poll-loop iteration the core passes the constant
timestamp `Instant::from_millis(0)` to `poll`: the supplied time is
trivially monotonically non-decreasing but is not derived from the cycle
counter (which is enabled at startup and never read) and never advances. -/
theorem timestamp_constant_supplied (i : Nat) :
    timestampSuppliedAt i = pollTimestampMillis ∧
    pollTimestampMillis = 0 ∧
    timestampSuppliedAt i ≤ timestampSuppliedAt (i + 1) :=
  ⟨rfl, rfl, le_refl _⟩

/-- C5.  TCP-only service: in every reachable state the socket set holds
exactly one socket and it is TCP (no UDP socket exists, despite the
module's doc comment describing a UDP echo responder), and every socket
operation of any non-panicking iteration targets the server handle
registered at startup. -/
theorem tcp_only_service (st st' : LoopState) (h : Reachable st) (inp : Input)
    (evs : List Event) (hstep : runIteration st inp = .next st' evs) :
    (∀ e ∈ st.sockets, e.kind = SocketKind.tcp) ∧
    st.sockets.length = 1 ∧
    (∀ ev ∈ evs, ∀ n, ev.handleOf = some n → n = serverHandle) := by
  obtain ⟨led, p, rfl⟩ := reachable_shape h
  refine ⟨by simp, rfl, ?_⟩
  obtain ⟨led', p', evs', heq, hh⟩ :=
    iterate_singleton_next led (inp.pollUpdate 0 p) inp.result
  rw [runIteration_singleton, heq] at hstep
  injection hstep with _ h2
  subst h2
  exact hh

/-- C5 witness: the first iteration from the initial state, with poll
leaving the socket untouched and reporting a readiness change. -/
theorem tcp_only_service_witness :
    (∀ e ∈ initState.sockets, e.kind = SocketKind.tcp) ∧
    initState.sockets.length = 1 ∧
    (∀ ev ∈ [Event.listen serverHandle 80], ∀ n,
      ev.handleOf = some n → n = serverHandle) :=
  tcp_only_service initState ⟨initLedIsSetLow, [⟨.tcp, listeningProto 80⟩]⟩
    Reachable.init ⟨fun _ q => q, .ok true⟩ [Event.listen serverHandle 80] rfl

/-- C6.  Closed-to-Listening transition: in an iteration in which poll
reports a readiness change and the TCP socket is observed not open, the
loop body issues `listen` on port 80, and that `listen` is the first
socket operation of the iteration — it precedes any send-capacity check
or write (here no write at all happens, since the freshly listening
socket cannot send). -/
theorem closed_to_listening (led : Bool) (p : ProtoState)
    (hopen : p.isOpen = false) :
    ((iterate ⟨led, [⟨.tcp, p⟩]⟩ (.ok true)).events.filter
        Event.isSocketOp).head? = some (.listen serverHandle 80) ∧
    iterate ⟨led, [⟨.tcp, p⟩]⟩ (.ok true) =
      .next ⟨led, [⟨.tcp, listeningProto 80⟩]⟩ [.listen serverHandle 80] := by
  refine ⟨?_, iterate_notopen_eq led p hopen⟩
  rw [iterate_notopen_eq led p hopen]
  rfl

/-- C6 witness: the not-open iteration at the initial socket state. -/
theorem closed_to_listening_witness :
    ((iterate ⟨true, [⟨.tcp, ⟨false, false, none⟩⟩]⟩ (.ok true)).events.filter
        Event.isSocketOp).head? = some (.listen serverHandle 80) ∧
    iterate ⟨true, [⟨.tcp, ⟨false, false, none⟩⟩]⟩ (.ok true) =
      .next ⟨true, [⟨.tcp, listeningProto 80⟩]⟩ [.listen serverHandle 80] :=
  closed_to_listening true ⟨false, false, none⟩ rfl

/-- C7.  Listen cannot fail: in every reachable poll-loop state no socket
other than the server socket binds port 80 (the set holds one socket), so
the `listen(80)` error branch — and hence the `unwrap` panic on its
result — is unreachable: no iteration from a reachable state panics,
whatever poll does and returns. -/
theorem listen_unwrap_unreachable (st : LoopState) (h : Reachable st)
    (inp : Input) :
    otherSocketBindsPort st.sockets serverHandle 80 = false ∧
    (runIteration st inp).isCrash = false := by
  obtain ⟨led, p, rfl⟩ := reachable_shape h
  refine ⟨otherSocketBindsPort_singleton _ 80, ?_⟩
  obtain ⟨led', p', evs', heq, _⟩ :=
    iterate_singleton_next led (inp.pollUpdate 0 p) inp.result
  rw [runIteration_singleton, heq]
  rfl

/-- C7 witness: the initial state, with poll reporting a readiness change. -/
theorem listen_unwrap_unreachable_witness :
    otherSocketBindsPort initState.sockets serverHandle 80 = false ∧
    (runIteration initState ⟨fun _ q => q, .ok true⟩).isCrash = false :=
  listen_unwrap_unreachable initState Reachable.init ⟨fun _ q => q, .ok true⟩

/-- C8.  Write never truncates: the response payload is at most 41 bytes
(the longer `"off"` variant; the `"on"` variant is 40), the outbound ring
buffer holds 2048 bytes, and the single bounded write of either variant
into the empty outbound buffer stores the whole payload. -/
theorem payload_fits_tx_buffer :
    (payload true).length = 40 ∧
    (payload false).length = 41 ∧
    txBufCapacity = 2048 ∧
    (payload false).length ≤ txBufCapacity ∧
    boundedWriteLen 0 txBufCapacity (payload true) = (payload true).length ∧
    boundedWriteLen 0 txBufCapacity (payload false) = (payload false).length := by
  refine ⟨rfl, rfl, rfl, by decide, by decide, by decide⟩

/-- C9.  Indicator ordering and polarity: in the send branch the LED
toggle (trace index 1) precedes the payload write (trace index 2); the
written payload reports the post-toggle pin level `!led`; `"on"` is
reported exactly when the pin is driven low (`is_set_low() = true`); and
initialization drives the pin high for off (`ledDuringInitIsSetLow =
false`) and low for on at loop entry (`initLedIsSetLow = true`). -/
theorem indicator_toggle_polarity (led : Bool) (p : ProtoState)
    (hopen : p.isOpen = true) (hsend : p.canSend = true) :
    iterate ⟨led, [⟨.tcp, p⟩]⟩ (.ok true) =
      .next ⟨!led, [⟨.tcp, { p with isOpen := false, canSend := false }⟩]⟩
        (sendTrace led) ∧
    (sendTrace led)[1]? = some .ledToggle ∧
    (sendTrace led)[2]? = some (.payloadWrite serverHandle (payload (!led))) ∧
    ledStateName true = "on" ∧
    ledStateName false = "off" ∧
    ledDuringInitIsSetLow = false ∧
    initLedIsSetLow = true :=
  ⟨iterate_open_send_eq led p hopen hsend, rfl, rfl, rfl, rfl, rfl, rfl⟩

/-- C9 witness: the concrete send iteration with the LED on. -/
theorem indicator_toggle_polarity_witness :
    iterate ⟨true, [⟨.tcp, ⟨true, true, some 80⟩⟩]⟩ (.ok true) =
      .next ⟨!true, [⟨.tcp, (⟨false, false, some 80⟩ : ProtoState)⟩]⟩
        (sendTrace true) ∧
    (sendTrace true)[1]? = some .ledToggle ∧
    (sendTrace true)[2]? = some (.payloadWrite serverHandle (payload (!true))) ∧
    ledStateName true = "on" ∧
    ledStateName false = "off" ∧
    ledDuringInitIsSetLow = false ∧
    initLedIsSetLow = true :=
  indicator_toggle_polarity true ⟨true, true, some 80⟩ rfl rfl

/-- C10.  Quiescent frame: when poll returns `Ok(false)` (no readiness
change), the loop body emits no event at all — no socket operation, no
diagnostic line, no LED change — and leaves the state exactly as it was. -/
theorem quiescent_iteration (st : LoopState) :
    iterate st (.ok false) = .next st [] :=
  rfl
